import Mathlib

/-!
Verification development for the credential store of
`carpeta_item_3/aplicacion_item3.py` (Flask + SQLite + werkzeug hashing).

The SQLite-backed store is embedded shallowly: the database file is a
`DBState` (does the `users` table exist, its rows, the AUTOINCREMENT
counter); each Python function over the database becomes a Lean function
over `DBState`, returning `Except SqliteError _` where the Python code can
raise a `sqlite3` exception.

the werkzeug functions `generate_password_hash` / `check_password_hash` are an external
library (not part of this repository); they are modelled as an idealised
salted hash: the hash value records the fresh salt and the password it was
generated from, and verification succeeds exactly on the generating
password (collision-free idealisation of the KDF; real werkzeug hash
strings are non-empty, which the model relies on where Python tests a hash
string for truthiness).
-/

set_option autoImplicit false

namespace Item3

/-- Idealised salted password hash, the value returned by the werkzeug
function `generate_password_hash(password)`: a fresh `salt` plus the digest, which
in the idealisation determines exactly the generating `password`. -/
structure PwHash where
  salt : Nat
  password : String
deriving DecidableEq, Repr

/-- Model of `werkzeug.security.generate_password_hash(password)` with the per-call
random salt made explicit as an argument. -/
def generate_password_hash (salt : Nat) (password : String) : PwHash :=
  ⟨salt, password⟩

/-- Model of `werkzeug.security.check_password_hash(pw_hash, password)`: re-runs the
KDF with the salt embedded in `pw_hash` and compares digests; in the
idealisation this succeeds exactly when `password` is the generating
password. -/
def check_password_hash (pw_hash : PwHash) (password : String) : Bool :=
  pw_hash.password == password

/-- Model of the Python string method `strip()` (no argument): removes
leading and trailing whitespace. Defined structurally over the character
list so that concrete instances evaluate inside proofs; on the ASCII
whitespace relevant here it agrees with Python. -/
def pyStrip (s : String) : String :=
  ⟨((s.data.dropWhile Char.isWhitespace).reverse.dropWhile
      Char.isWhitespace).reverse⟩

/-- Model of the Python string method `lower()`: lowercases every
character; on the ASCII subcommand names used by the CLI it agrees with
Python. -/
def pyLower (s : String) : String :=
  ⟨s.data.map Char.toLower⟩

instance exceptDecidableEq {ε α : Type} [DecidableEq ε] [DecidableEq α] :
    DecidableEq (Except ε α) := fun x y =>
  match x, y with
  | .error a, .error b =>
    if h : a = b then .isTrue (by rw [h])
    else .isFalse (fun he => h (Except.error.inj he))
  | .ok a, .ok b =>
    if h : a = b then .isTrue (by rw [h])
    else .isFalse (fun he => h (Except.ok.inj he))
  | .error _, .ok _ => .isFalse (fun he => Except.noConfusion he)
  | .ok _, .error _ => .isFalse (fun he => Except.noConfusion he)

/-- One row of the `users` table:
`(id INTEGER PRIMARY KEY AUTOINCREMENT, username TEXT UNIQUE NOT NULL,
password_hash TEXT NOT NULL)`. -/
structure Row where
  id : Nat
  username : String
  password_hash : PwHash
deriving DecidableEq, Repr

/-- The state of the SQLite database file `usuarios.db`: whether the
`users` table has been created, its rows in insertion order, the
AUTOINCREMENT counter for `id`, and a counter supplying the fresh random
salt of each `generate_password_hash` call. -/
structure DBState where
  tableExists : Bool
  rows : List Row
  nextId : Nat
  nextSalt : Nat
deriving DecidableEq, Repr

/-- Exceptions from `sqlite3` that the embedded code can raise: `IntegrityError`
(UNIQUE constraint violation) and `OperationalError` (no such table). -/
inductive SqliteError where
  | integrityError
  | operationalError
deriving DecidableEq, Repr

/-- Model of `init_db()`: `CREATE TABLE IF NOT EXISTS users (...)` — creates the
(empty) table when absent, otherwise changes nothing. -/
def init_db (s : DBState) : DBState :=
  if s.tableExists then s
  else { s with tableExists := true, rows := [], nextId := 1 }

/-- Model of `get_password_hash(username)`:
`SELECT password_hash FROM users WHERE username = ?` then
`row[0] if row else None`. SQLite TEXT comparison under the default BINARY
collation is exact (case-sensitive) string equality. Raises
`OperationalError` when the `users` table does not exist. -/
def get_password_hash (s : DBState) (username : String) :
    Except SqliteError (Option PwHash) :=
  if s.tableExists then
    .ok ((s.rows.find? (fun r => r.username == username)).map
      (fun r => r.password_hash))
  else .error .operationalError

/-- Model of `add_user(username, password)`: hashes the password, then
`INSERT INTO users(username, password_hash) VALUES(?, ?)`. The INSERT
raises `IntegrityError` when a row with the same `username` exists (UNIQUE
constraint), and writes nothing in that case; on success the new row gets
the next AUTOINCREMENT id. -/
def add_user (s : DBState) (username password : String) :
    Except SqliteError DBState :=
  let pw_hash := generate_password_hash s.nextSalt password
  if s.tableExists then
    if s.rows.any (fun r => r.username == username) then
      .error .integrityError
    else
      .ok { s with
        rows := s.rows ++ [⟨s.nextId, username, pw_hash⟩],
        nextId := s.nextId + 1,
        nextSalt := s.nextSalt + 1 }
  else .error .operationalError

/-- Model of `validate_user(username, password)`: looks up the stored hash; `if not
pw_hash: return False` (a werkzeug hash string is never empty, so Python
falsiness coincides with absence of the row); otherwise returns
`check_password_hash(pw_hash, password)`. -/
def validate_user (s : DBState) (username password : String) :
    Except SqliteError Bool :=
  match get_password_hash s username with
  | .error e => .error e
  | .ok none => .ok false
  | .ok (some pw_hash) => .ok (check_password_hash pw_hash password)

/-- Variant of `validate_user` instrumented with the number of hash-verification
computations (`check_password_hash` calls) it performs. -/
def validate_user_hashOps (s : DBState) (username password : String) :
    Except SqliteError (Bool × Nat) :=
  match get_password_hash s username with
  | .error e => .error e
  | .ok none => .ok (false, 0)
  | .ok (some pw_hash) => .ok (check_password_hash pw_hash password, 1)

/-- Outcome of the web registration route, the error kinds the spec names for `register`
in the route: `invalidInput` is the "Datos inválidos" branch,
`duplicateUser` the `except sqlite3.IntegrityError` / "El usuario ya
existe" branch; any other sqlite exception propagates out of the route. -/
inductive RegisterError where
  | invalidInput
  | duplicateUser
  | storage (e : SqliteError)
deriving DecidableEq, Repr

/-- The POST branch of the `/register` route (`def register`): strips both
form fields, rejects when either is empty, otherwise calls `add_user`,
translating `IntegrityError` into the duplicate-user failure. On success
(redirect to home) it returns the updated store. -/
def register (s : DBState) (username password : String) :
    Except RegisterError DBState :=
  if pyStrip username = "" ∨ pyStrip password = "" then .error .invalidInput
  else
    match add_user s (pyStrip username) (pyStrip password) with
    | .ok s1 => .ok s1
    | .error .integrityError => .error .duplicateUser
    | .error e => .error (.storage e)

/-- The POST branch of the `/login` route (`def login`): strips both form
fields and reports the boolean from `validate_user`. -/
def login (s : DBState) (username password : String) :
    Except SqliteError Bool :=
  validate_user s (pyStrip username) (pyStrip password)

/-- Python exceptions the `__main__` block can terminate with when
uncaught: `IndexError` from `os.sys.argv[k]` on missing arguments, or a
propagated `sqlite3` error. -/
inductive PyError where
  | indexError
  | sqlite (e : SqliteError)
deriving DecidableEq, Repr

/-- Process termination of one CLI invocation: `exit0` covers both
`os.sys.exit(0)` and falling off the end of the script; an uncaught Python
exception makes the interpreter exit with a non-zero status. -/
inductive CliExit where
  | exit0
  | uncaught (e : PyError)
deriving DecidableEq, Repr

/-- Result of one CLI invocation: final database state, lines printed to
stdout, process exit, and how many times `init_db()` ran. -/
structure CliResult where
  state : DBState
  output : List String
  exit : CliExit
  initCalls : Nat
deriving DecidableEq, Repr

/-- The lines printed by `usage()`. -/
def usageLines : List String :=
  ["Uso del programa:",
   "  python3 aplicacion_item_3.py init-db",
   "  python3 aplicacion_item_3.py add-user Gabriel_Badilla Clave123",
   "  python3 aplicacion_item_3.py validate Gabriel_Badilla Clave123",
   "  python3 aplicacion_item_3.py run"]

/-- The `if __name__ == "__main__"` block, with `args` standing for
`os.sys.argv[1:]`. It always runs `init_db()` first; with no subcommand it
prints `usage()` and exits 0; otherwise it lowercases the subcommand and
dispatches. `add-user`/`validate` index `argv[2]`/`argv[3]`, raising
`IndexError` when absent; `add_user` can raise `IntegrityError`, which the
CLI does not catch. The `run` branch prints its banner and hands over to
`app.run` (the blocking server loop is outside this model). An unknown
subcommand matches no branch: nothing is printed and the script ends. -/
def mainCLI (s : DBState) (args : List String) : CliResult :=
  let s := init_db s
  match args with
  | [] => { state := s, output := usageLines, exit := .exit0, initCalls := 1 }
  | cmdArg :: rest =>
    let cmd := pyLower cmdArg
    if cmd = "init-db" then
      let s := init_db s
      { state := s, output := ["Base de datos inicializada correctamente."],
        exit := .exit0, initCalls := 2 }
    else if cmd = "add-user" then
      match rest with
      | user :: pw :: _ =>
        match add_user s user pw with
        | .ok s1 =>
          { state := s1, output := ["Usuario creado: " ++ user],
            exit := .exit0, initCalls := 1 }
        | .error e =>
          { state := s, output := [], exit := .uncaught (.sqlite e),
            initCalls := 1 }
      | _ =>
        { state := s, output := [], exit := .uncaught .indexError,
          initCalls := 1 }
    else if cmd = "validate" then
      match rest with
      | user :: pw :: _ =>
        match validate_user s user pw with
        | .ok b =>
          { state := s,
            output := [if b then "Credenciales válidas"
                       else "Credenciales inválidas"],
            exit := .exit0, initCalls := 1 }
        | .error e =>
          { state := s, output := [], exit := .uncaught (.sqlite e),
            initCalls := 1 }
      | _ =>
        { state := s, output := [], exit := .uncaught .indexError,
          initCalls := 1 }
    else if cmd = "run" then
      { state := s, output := ["Servidor ejecutándose en http://localhost:5800"],
        exit := .exit0, initCalls := 1 }
    else
      { state := s, output := [], exit := .exit0, initCalls := 1 }

/-! ### Helper lemmas about the store operations -/

/-- Abbreviation for the state after a successful INSERT of `username`
with the hash of `password`; used to state the lemmas below. -/
def insertRow (s : DBState) (username password : String) : DBState :=
  { s with
    rows := s.rows ++ [⟨s.nextId, username,
      generate_password_hash s.nextSalt password⟩],
    nextId := s.nextId + 1,
    nextSalt := s.nextSalt + 1 }

theorem insertRow_rows (s : DBState) (u p : String) :
    (insertRow s u p).rows
      = s.rows ++ [⟨s.nextId, u, generate_password_hash s.nextSalt p⟩] := rfl

theorem init_db_tableExists (s : DBState) : (init_db s).tableExists = true := by
  unfold init_db
  by_cases h : s.tableExists <;> simp [h]

theorem add_user_fresh (s : DBState) (u p : String)
    (htab : s.tableExists = true)
    (hfresh : s.rows.any (fun r => r.username == u) = false) :
    add_user s u p = .ok (insertRow s u p) := by
  unfold add_user
  rw [if_pos htab, if_neg (by simp [hfresh])]
  rfl

theorem add_user_dup (s : DBState) (u p : String)
    (htab : s.tableExists = true)
    (hdup : s.rows.any (fun r => r.username == u) = true) :
    add_user s u p = .error .integrityError := by
  unfold add_user
  rw [if_pos htab, if_pos hdup]

theorem validate_user_notFound (s : DBState) (u p : String)
    (htab : s.tableExists = true)
    (habs : s.rows.find? (fun r => r.username == u) = none) :
    validate_user s u p = .ok false := by
  unfold validate_user get_password_hash
  rw [if_pos htab, habs]
  rfl

theorem validate_user_found (s : DBState) (u p : String) (r : Row)
    (htab : s.tableExists = true)
    (hfind : s.rows.find? (fun r => r.username == u) = some r) :
    validate_user s u p = .ok (check_password_hash r.password_hash p) := by
  unfold validate_user get_password_hash
  rw [if_pos htab, hfind]
  rfl

theorem validate_user_isOk (s : DBState) (u p : String)
    (htab : s.tableExists = true) :
    ∃ b, validate_user s u p = .ok b := by
  cases hfind : s.rows.find? (fun r => r.username == u) with
  | none => exact ⟨false, validate_user_notFound s u p htab hfind⟩
  | some r => exact ⟨_, validate_user_found s u p r htab hfind⟩

theorem any_eq_false_of_find?_eq_none {l : List Row} {p : Row → Bool}
    (h : l.find? p = none) : l.any p = false := by
  rw [List.any_eq_false]
  intro r hr
  exact List.find?_eq_none.mp h r hr

theorem find?_eq_none_of_any_eq_false {l : List Row} {p : Row → Bool}
    (h : l.any p = false) : l.find? p = none := by
  rw [List.find?_eq_none]
  intro r hr
  exact (List.any_eq_false.mp h) r hr

/-! ### Claims -/

/-- C1: for every valid `(username, password)` pair whose username is not
previously registered, `register` (the store insert `add_user`) followed by
`authenticate(username, password)` (the store lookup `validate_user`)
returns `true`. -/
theorem c1_register_then_authenticate_true (s : DBState) (u p : String)
    (_hu : pyStrip u ≠ "") (_hp : pyStrip p ≠ "")
    (htab : s.tableExists = true)
    (hfresh : s.rows.any (fun r => r.username == u) = false) :
    ∃ s1, add_user s u p = .ok s1 ∧ validate_user s1 u p = .ok true := by
  refine ⟨insertRow s u p, add_user_fresh s u p htab hfresh, ?_⟩
  have hfind : (insertRow s u p).rows.find? (fun r => r.username == u)
      = some ⟨s.nextId, u, generate_password_hash s.nextSalt p⟩ := by
    rw [insertRow_rows, List.find?_append, find?_eq_none_of_any_eq_false hfresh]
    simp
  rw [validate_user_found (insertRow s u p) u p
      ⟨s.nextId, u, generate_password_hash s.nextSalt p⟩ htab hfind]
  simp [check_password_hash, generate_password_hash]

/-- Witness for C1 at the concrete pair `("ana", "Clave123")` on an empty
store. -/
theorem c1_witness :
    ∃ s1, add_user { tableExists := true, rows := [], nextId := 1, nextSalt := 0 }
        "ana" "Clave123" = .ok s1 ∧
      validate_user s1 "ana" "Clave123" = .ok true :=
  c1_register_then_authenticate_true
    { tableExists := true, rows := [], nextId := 1, nextSalt := 0 }
    "ana" "Clave123" (by decide) (by decide) rfl rfl

/-- C2 counterexample: on a store where `"bob"` is unregistered,
`authenticate` returns `false` having performed zero hash-verification
computations, while an existing-user lookup with a wrong password performs
one; there is no dummy verification pass against a placeholder hash, so the
function does not perform "the same one hash-verification computation" in
the two cases. -/
theorem c2_counterexample :
    validate_user_hashOps
      { tableExists := true, rows := [], nextId := 1, nextSalt := 0 }
      "bob" "pw" = .ok (false, 0) ∧
    validate_user_hashOps
      { tableExists := true,
        rows := [⟨1, "ana", generate_password_hash 0 "Clave123"⟩],
        nextId := 2, nextSalt := 1 }
      "ana" "pw" = .ok (false, 1) ∧
    (0 : Nat) ≠ 1 := by
  refine ⟨?_, ?_, ?_⟩ <;> decide

/-- C2 amended: `authenticate` on an unregistered username returns `false`
and performs zero hash-verification computations — it short-circuits before
any hash work, so the absent-user path is not padded to match the
existing-user case. -/
theorem c2_amended_short_circuits (s : DBState) (u p : String)
    (htab : s.tableExists = true)
    (habs : s.rows.find? (fun r => r.username == u) = none) :
    validate_user_hashOps s u p = .ok (false, 0) := by
  unfold validate_user_hashOps get_password_hash
  rw [if_pos htab, habs]
  rfl

/-- Witness for the amended C2 on a concrete store holding only `"ana"`. -/
theorem c2_amended_witness :
    validate_user_hashOps
      { tableExists := true,
        rows := [⟨1, "ana", generate_password_hash 0 "Clave123"⟩],
        nextId := 2, nextSalt := 1 }
      "eve" "pw" = .ok (false, 0) :=
  c2_amended_short_circuits
    { tableExists := true,
      rows := [⟨1, "ana", generate_password_hash 0 "Clave123"⟩],
      nextId := 2, nextSalt := 1 } "eve" "pw" rfl (by decide)

/-- C3: registering the same username twice: the first call succeeds, the
second fails with `DuplicateUser`, and after both attempts the table holds
exactly one row for that username, whose stored hash is the hash computed
by the first successful call. -/
theorem c3_duplicate_register_no_mutation (s : DBState) (u p q : String)
    (htab : s.tableExists = true)
    (hu : pyStrip u ≠ "") (hp : pyStrip p ≠ "") (hq : pyStrip q ≠ "")
    (hfresh : s.rows.any (fun r => r.username == pyStrip u) = false) :
    register s u p = .ok (insertRow s (pyStrip u) (pyStrip p)) ∧
    register (insertRow s (pyStrip u) (pyStrip p)) u q
      = .error .duplicateUser ∧
    ((insertRow s (pyStrip u) (pyStrip p)).rows.filter
        (fun r => r.username == pyStrip u)).map (fun r => r.password_hash)
      = [generate_password_hash s.nextSalt (pyStrip p)] := by
  refine ⟨?_, ?_, ?_⟩
  · unfold register
    rw [if_neg (not_or.mpr ⟨hu, hp⟩),
      add_user_fresh s (pyStrip u) (pyStrip p) htab hfresh]
  · have hdup : (insertRow s (pyStrip u) (pyStrip p)).rows.any
        (fun r => r.username == pyStrip u) = true := by
      rw [insertRow_rows, List.any_append]
      simp
    unfold register
    rw [if_neg (not_or.mpr ⟨hu, hq⟩),
      add_user_dup (insertRow s (pyStrip u) (pyStrip p))
        (pyStrip u) (pyStrip q) htab hdup]
  · rw [insertRow_rows, List.filter_append,
      List.filter_eq_nil_iff.mpr (List.any_eq_false.mp hfresh)]
    simp

/-- Witness for C3: registering `"ana"` twice on an empty store. -/
theorem c3_witness :
    register { tableExists := true, rows := [], nextId := 1, nextSalt := 0 }
      "ana" "Clave123"
      = .ok (insertRow
          { tableExists := true, rows := [], nextId := 1, nextSalt := 0 }
          "ana" "Clave123") ∧
    register (insertRow
        { tableExists := true, rows := [], nextId := 1, nextSalt := 0 }
        "ana" "Clave123") "ana" "Otra456" = .error .duplicateUser := by
  have h := c3_duplicate_register_no_mutation
    { tableExists := true, rows := [], nextId := 1, nextSalt := 0 }
    "ana" "Clave123" "Otra456" rfl (by decide) (by decide) (by decide) rfl
  exact ⟨h.1, h.2.1⟩

/-- C4: whenever the username or the password is empty after trimming
surrounding whitespace, the registration route fails with `InvalidInput`;
it never reaches the INSERT, so no row is created. -/
theorem c4_empty_input_invalid (s : DBState) (u p : String)
    (h : pyStrip u = "" ∨ pyStrip p = "") :
    register s u p = .error .invalidInput := by
  rcases h with h | h <;> simp [register, h]

/-- Witness for C4: both `register("", "x")` and `register("x", "")` fail
with `InvalidInput` on a concrete store. -/
theorem c4_witness :
    register { tableExists := true, rows := [], nextId := 1, nextSalt := 0 }
      "" "x" = .error .invalidInput ∧
    register { tableExists := true, rows := [], nextId := 1, nextSalt := 0 }
      "x" "" = .error .invalidInput :=
  ⟨c4_empty_input_invalid _ "" "x" (Or.inl (by decide)),
   c4_empty_input_invalid _ "x" "" (Or.inr (by decide))⟩

/-- C5: for every username with no record in the store and every password,
`authenticate` (`validate_user`) returns `false` and raises no error. -/
theorem c5_absent_user_false_no_error (s : DBState) (u p : String)
    (htab : s.tableExists = true)
    (habs : s.rows.find? (fun r => r.username == u) = none) :
    validate_user s u p = .ok false :=
  validate_user_notFound s u p htab habs

/-- Witness for C5 on a concrete store holding only the user `"ana"`. -/
theorem c5_witness :
    validate_user
      { tableExists := true,
        rows := [⟨1, "ana", generate_password_hash 0 "Clave123"⟩],
        nextId := 2, nextSalt := 1 } "bob" "whatever" = .ok false :=
  c5_absent_user_false_no_error
    { tableExists := true,
      rows := [⟨1, "ana", generate_password_hash 0 "Clave123"⟩],
      nextId := 2, nextSalt := 1 } "bob" "whatever" rfl (by decide)

/-- C6: `init_db` is idempotent — on any state where the table already
exists it is the identity (schema and rows untouched), and running it twice
is the same as running it once. -/
theorem c6_init_db_idempotent :
    (∀ s : DBState, s.tableExists = true → init_db s = s) ∧
    (∀ s : DBState, init_db (init_db s) = init_db s) := by
  have h1 : ∀ s : DBState, s.tableExists = true → init_db s = s := by
    intro s h
    unfold init_db
    rw [if_pos h]
  exact ⟨h1, fun s => h1 (init_db s) (init_db_tableExists s)⟩

/-- Witness for C6 on a concrete state whose table exists. -/
theorem c6_witness :
    init_db { tableExists := true,
              rows := [⟨1, "ana", generate_password_hash 0 "Clave123"⟩],
              nextId := 2, nextSalt := 1 }
      = { tableExists := true,
          rows := [⟨1, "ana", generate_password_hash 0 "Clave123"⟩],
          nextId := 2, nextSalt := 1 } :=
  c6_init_db_idempotent.1 _ rfl

/-- C7: username and password matching is case-sensitive: after
`register("ana", "Clave123")` succeeds, `authenticate("ana", "Clave123")`
is `true` while `authenticate("ana", "clave123")` and
`authenticate("ANA", "Clave123")` are `false`. -/
theorem c7_case_sensitive :
    register { tableExists := true, rows := [], nextId := 1, nextSalt := 0 }
        "ana" "Clave123"
      = .ok { tableExists := true,
              rows := [⟨1, "ana", generate_password_hash 0 "Clave123"⟩],
              nextId := 2, nextSalt := 1 } ∧
    validate_user
      { tableExists := true,
        rows := [⟨1, "ana", generate_password_hash 0 "Clave123"⟩],
        nextId := 2, nextSalt := 1 } "ana" "Clave123" = .ok true ∧
    validate_user
      { tableExists := true,
        rows := [⟨1, "ana", generate_password_hash 0 "Clave123"⟩],
        nextId := 2, nextSalt := 1 } "ana" "clave123" = .ok false ∧
    validate_user
      { tableExists := true,
        rows := [⟨1, "ana", generate_password_hash 0 "Clave123"⟩],
        nextId := 2, nextSalt := 1 } "ANA" "Clave123" = .ok false := by
  refine ⟨?_, ?_, ?_, ?_⟩ <;> decide

/-- C8: for every registered username whose stored hash was generated from
its original password, `authenticate` with any different password returns
`false`. -/
theorem c8_wrong_password_false (s : DBState) (u p wrong : String)
    (salt : Nat) (r : Row)
    (htab : s.tableExists = true)
    (hfind : s.rows.find? (fun rr => rr.username == u) = some r)
    (hhash : r.password_hash = generate_password_hash salt p)
    (hwrong : wrong ≠ p) :
    validate_user s u wrong = .ok false := by
  rw [validate_user_found s u wrong r htab hfind, hhash]
  simp [check_password_hash, generate_password_hash]
  exact Ne.symm hwrong

/-- Witness for C8: `"ana"` registered with `"Clave123"`, then a wrong
password is rejected. -/
theorem c8_witness :
    validate_user
      { tableExists := true,
        rows := [⟨1, "ana", generate_password_hash 0 "Clave123"⟩],
        nextId := 2, nextSalt := 1 } "ana" "Clave124" = .ok false :=
  c8_wrong_password_false
    { tableExists := true,
      rows := [⟨1, "ana", generate_password_hash 0 "Clave123"⟩],
      nextId := 2, nextSalt := 1 }
    "ana" "Clave123" "Clave124" 0
    ⟨1, "ana", generate_password_hash 0 "Clave123"⟩
    rfl (by decide) rfl (by decide)

theorem add_user_ok_tableExists {s s1 : DBState} {u p : String}
    (h : add_user s u p = .ok s1) : s1.tableExists = true := by
  unfold add_user at h
  by_cases htab : s.tableExists = true
  · rw [if_pos htab] at h
    by_cases hdup : s.rows.any (fun r => r.username == u) = true
    · rw [if_pos hdup] at h
      exact absurd h (by simp)
    · rw [if_neg hdup] at h
      injection h with h1
      rw [← h1]
      exact htab
  · rw [if_neg htab] at h
    exact absurd h (by simp)

/-- C9 counterexample: with `"ana"` already registered, the CLI invocation
`add-user ana y` has all its required arguments, yet terminates on an
uncaught `sqlite3.IntegrityError` — a non-zero process exit status — rather
than printing a failure message and exiting 0. -/
theorem c9_counterexample :
    (mainCLI
      { tableExists := true,
        rows := [⟨1, "ana", generate_password_hash 0 "x"⟩],
        nextId := 2, nextSalt := 1 } ["add-user", "ana", "y"]).exit
      = .uncaught (.sqlite .integrityError) ∧
    CliExit.uncaught (.sqlite .integrityError) ≠ .exit0 := by
  refine ⟨?_, ?_⟩ <;> decide

theorem mainCLI_validate_eq (s : DBState) (user pw : String)
    (rest : List String) :
    mainCLI s ("validate" :: user :: pw :: rest)
      = match validate_user (init_db s) user pw with
        | .ok b =>
          { state := init_db s,
            output := [if b then "Credenciales válidas"
                       else "Credenciales inválidas"],
            exit := .exit0, initCalls := 1 }
        | .error e =>
          { state := init_db s, output := [],
            exit := .uncaught (.sqlite e), initCalls := 1 } := rfl

theorem mainCLI_addUser_eq (s : DBState) (user pw : String)
    (rest : List String) :
    mainCLI s ("add-user" :: user :: pw :: rest)
      = match add_user (init_db s) user pw with
        | .ok s1 =>
          { state := s1, output := ["Usuario creado: " ++ user],
            exit := .exit0, initCalls := 1 }
        | .error e =>
          { state := init_db s, output := [],
            exit := .uncaught (.sqlite e), initCalls := 1 } := rfl

/-- C9 amended: the CLI exits non-zero when required arguments are missing
(uncaught `IndexError` for `add-user` or `validate` called with fewer than
two arguments) and also when `add-user` names an already registered
username (uncaught `IntegrityError`); the no-argument, `init-db`,
`validate`, `run` and fresh-username `add-user` invocations print their
human-readable text and exit with status 0. -/
theorem c9_amended_exit_status (s : DBState) (u p : String) :
    (mainCLI s []).exit = .exit0 ∧
    (mainCLI s ["init-db"]).exit = .exit0 ∧
    (mainCLI s ["init-db"]).output
      = ["Base de datos inicializada correctamente."] ∧
    (mainCLI s ["validate", u, p]).exit = .exit0 ∧
    (mainCLI s ["validate", u, p]).output ≠ [] ∧
    (mainCLI s ["run"]).exit = .exit0 ∧
    (mainCLI s ["run"]).output
      = ["Servidor ejecutándose en http://localhost:5800"] ∧
    (mainCLI s ["add-user"]).exit = .uncaught .indexError ∧
    (mainCLI s ["add-user", u]).exit = .uncaught .indexError ∧
    (mainCLI s ["validate"]).exit = .uncaught .indexError ∧
    (mainCLI s ["validate", u]).exit = .uncaught .indexError ∧
    ((init_db s).rows.any (fun r => r.username == u) = false →
      (mainCLI s ["add-user", u, p]).exit = .exit0 ∧
      (mainCLI s ["add-user", u, p]).output = ["Usuario creado: " ++ u]) ∧
    ((init_db s).rows.any (fun r => r.username == u) = true →
      (mainCLI s ["add-user", u, p]).exit
        = .uncaught (.sqlite .integrityError)) := by
  refine ⟨rfl, rfl, rfl, ?_, ?_, rfl, rfl, rfl, rfl, rfl, rfl, ?_, ?_⟩
  · obtain ⟨b, hb⟩ := validate_user_isOk (init_db s) u p (init_db_tableExists s)
    rw [mainCLI_validate_eq s u p [], hb]
  · obtain ⟨b, hb⟩ := validate_user_isOk (init_db s) u p (init_db_tableExists s)
    rw [mainCLI_validate_eq s u p [], hb]
    simp
  · intro hfresh
    have hadd := add_user_fresh (init_db s) u p (init_db_tableExists s) hfresh
    exact ⟨by rw [mainCLI_addUser_eq s u p [], hadd],
           by rw [mainCLI_addUser_eq s u p [], hadd]⟩
  · intro hdup
    have hadd := add_user_dup (init_db s) u p (init_db_tableExists s) hdup
    rw [mainCLI_addUser_eq s u p [], hadd]

/-- Witness for the amended C9: duplicate `add-user` on a concrete store
exits on the uncaught `IntegrityError`. -/
theorem c9_amended_witness :
    (mainCLI
      { tableExists := true,
        rows := [⟨1, "ana", generate_password_hash 0 "x"⟩],
        nextId := 2, nextSalt := 1 } ["add-user", "ana", "zz"]).exit
      = .uncaught (.sqlite .integrityError) :=
  (c9_amended_exit_status
    { tableExists := true,
      rows := [⟨1, "ana", generate_password_hash 0 "x"⟩],
      nextId := 2, nextSalt := 1 }
    "ana" "zz").2.2.2.2.2.2.2.2.2.2.2.2 (by decide)

/-- C10: every CLI invocation runs `init_db()` at least once before
dispatching (so the table exists afterwards whatever the arguments were),
both `add-user` and `validate` work on a completely fresh store without a
prior explicit `init-db` (no missing-table error: `add-user` inserts its
row and `validate` prints its negative answer, both exiting 0), and the
`init-db` subcommand runs `init_db()` twice. -/
theorem c10_cli_always_runs_init_db (s : DBState) (args : List String)
    (u p : String) :
    1 ≤ (mainCLI s args).initCalls ∧
    (mainCLI s args).state.tableExists = true ∧
    (mainCLI s ["init-db"]).initCalls = 2 ∧
    (s.tableExists = false →
      (mainCLI s ["add-user", u, p]).exit = .exit0 ∧
      (mainCLI s ["add-user", u, p]).state.rows
        = [⟨1, u, generate_password_hash s.nextSalt p⟩] ∧
      (mainCLI s ["validate", u, p]).exit = .exit0 ∧
      (mainCLI s ["validate", u, p]).output = ["Credenciales inválidas"]) := by
  refine ⟨?_, ?_, rfl, ?_⟩
  · unfold mainCLI
    match args with
    | [] => simp
    | cmdArg :: rest =>
      simp only []
      split
      · simp
      · split
        · split
          · split <;> simp
          · simp
        · split
          · split
            · split <;> simp
            · simp
          · split <;> simp
  · unfold mainCLI
    match args with
    | [] => simp [init_db_tableExists]
    | cmdArg :: rest =>
      simp only []
      split
      · simp [init_db_tableExists]
      · split
        · split
          · split
            · simp [add_user_ok_tableExists ‹_›]
            · simp [init_db_tableExists]
          · simp [init_db_tableExists]
        · split
          · split
            · split <;> simp [init_db_tableExists]
            · simp [init_db_tableExists]
          · split <;> simp [init_db_tableExists]
  · intro h0
    have h1 : init_db s = { s with tableExists := true, rows := [], nextId := 1 } := by
      unfold init_db
      rw [if_neg (by simp [h0])]
    have h2 := add_user_fresh
      { s with tableExists := true, rows := [], nextId := 1 } u p rfl rfl
    have hv : validate_user
        { s with tableExists := true, rows := [], nextId := 1 } u p
          = .ok false :=
      validate_user_notFound
        { s with tableExists := true, rows := [], nextId := 1 } u p rfl rfl
    refine ⟨?_, ?_, ?_, ?_⟩
    · rw [mainCLI_addUser_eq s u p [], h1, h2]
    · rw [mainCLI_addUser_eq s u p [], h1, h2]
      simp [insertRow]
    · rw [mainCLI_validate_eq s u p [], h1, hv]
    · rw [mainCLI_validate_eq s u p [], h1, hv]
      simp

/-- Witness for C10: on a store whose table was never created, a plain
`add-user` invocation and a plain `validate` invocation both succeed end
to end. -/
theorem c10_witness :
    (mainCLI { tableExists := false, rows := [], nextId := 0, nextSalt := 0 }
      ["add-user", "ana", "pw"]).exit = .exit0 ∧
    (mainCLI { tableExists := false, rows := [], nextId := 0, nextSalt := 0 }
      ["validate", "ana", "pw"]).exit = .exit0 :=
  ⟨((c10_cli_always_runs_init_db
      { tableExists := false, rows := [], nextId := 0, nextSalt := 0 }
      ["add-user", "ana", "pw"] "ana" "pw").2.2.2 rfl).1,
   ((c10_cli_always_runs_init_db
      { tableExists := false, rows := [], nextId := 0, nextSalt := 0 }
      ["validate", "ana", "pw"] "ana" "pw").2.2.2 rfl).2.2.1⟩

end Item3
